import Mathlib

/-!
A shallow embedding of the RAG pipeline in `main.py` (cadgpt): the node
definitions (RetrieveContext, GenerateCode, SaveToNotebook, EvaluateContext,
DecomposeTask, AnalyzeQuery, VerifyCode), the flow graph built by
`create_cadquery_flow`, and the top-level `query_rag` entry point.

External collaborators (the Chroma similarity search, the OpenAI chat model,
the guideline file and the notebook file) are modelled as explicit inputs.
Python's `sorted(..., key=lambda x: x[1], reverse=True)` is a stable sort on
the score component in descending order; it is embedded as a stable insertion
sort.  Python machine floats only appear as relevance scores and temperature
values, which the program merely compares and passes along, so they are
embedded as rationals.
-/

namespace CadGPT

/-- A retrieved document as produced by the vector store: the passage text and
a string-keyed metadata dictionary (`chunk[0].page_content`,
`chunk[0].metadata` in `main.py`). -/
structure Document where
  page_content : String
  metadata : List (String × String)
deriving DecidableEq, Repr

/-- The lookup `metadata.get("id", None)` on the embedded metadata dictionary. -/
def metadataGetId (d : Document) : Option String :=
  d.metadata.lookup "id"

/-- One step of a stable descending insertion sort on the score component:
`p` passes over every element whose score is strictly greater, and stops
before the first element whose score is `≤ p.2`, so equal scores keep their
original relative order, as Python's stable `sorted` does. -/
def insertDesc (p : Document × ℚ) : List (Document × ℚ) → List (Document × ℚ)
  | [] => [p]
  | q :: rest => if p.2 < q.2 then q :: insertDesc p rest else p :: q :: rest

/-- Stable sort by score, descending: the embedding of
`sorted(results, key=lambda x: x[1], reverse=True)` (main.py line 80). -/
def sortByScoreDesc : List (Document × ℚ) → List (Document × ℚ)
  | [] => []
  | p :: rest => insertDesc p (sortByScoreDesc rest)

/-- The exec phase `RetrieveContext.exec` after the external similarity search returned
`results`: the node returns the pairs sorted by score in descending order. -/
def retrieveExec (results : List (Document × ℚ)) : List (Document × ℚ) :=
  sortByScoreDesc results

/-- The fixed worked-example preamble `RetrieveContext._build_base_context`
(main.py lines 90-109), transcribed from the Python triple-quoted literal. -/
def buildBaseContext : String :=
  "\n        ---\n        Example 1:\n        Request: Create a cylinder with a 1-inch diameter and 2-inch height.\n        Output:\n        import cadquery as cq\n        result = cq.Workplane(\"XY\").cylinder(\"2\", 0.5, centered=(True, True, False))\n        ---\n\n        Example 2:\n        Request: Create a nut with a 1/2 inch diameter.\n        Output:\n        import cadquery as cq\n        diameter = 0.5\n        height = 0.25\n        result = cq.Workplane(\"XY\").circle(diameter / 2).extrude(height)\n        .faces(\"<Z\").workplane().hole(diameter / 4)\n        ---\n        "

/-- The context string assembled by `RetrieveContext.post` from the exec
result: the preamble followed by `\"\n\n---\n\n\" + chunk[0].page_content` for
each chunk, in exec-result order (main.py lines 83-85). -/
def retrieveContextText (exec_res : List (Document × ℚ)) : String :=
  exec_res.foldl (fun acc chunk => acc ++ "\n\n---\n\n" ++ chunk.1.page_content)
    buildBaseContext

/-- The `sources` list written by `RetrieveContext.post`:
`[chunk[0].metadata.get("id", None) for chunk in exec_res]` (main.py line 87). -/
def retrieveSources (exec_res : List (Document × ℚ)) : List (Option String) :=
  exec_res.map (fun chunk => metadataGetId chunk.1)

/-- The passages in the order they are concatenated into the context, for the
whole Retrieve node run (exec, then post) on the search collaborator's
`results`. -/
def retrievePassages (results : List (Document × ℚ)) : List String :=
  (retrieveExec results).map (fun chunk => chunk.1.page_content)

/-- The `context` entry after the whole Retrieve node run on `results`. -/
def retrieveRunContext (results : List (Document × ℚ)) : String :=
  retrieveContextText (retrieveExec results)

/-- The `sources` entry after the whole Retrieve node run on `results`. -/
def retrieveRunSources (results : List (Document × ℚ)) : List (Option String) :=
  retrieveSources (retrieveExec results)

end CadGPT

namespace CadGPT

/-- The concrete documents of the spec's worked example. -/
def docA : Document := ⟨"docA", [("id", "idA")]⟩

def docB : Document := ⟨"docB", [("id", "idB")]⟩

def docC : Document := ⟨"docC", [("id", "idC")]⟩

/-- The mocked search result `[(docA, 0.9), (docB, 0.3), (docC, 0.6)]`
(scores written as explicit rationals: 0.9 = 9/10, and so on). -/
def exampleResults : List (Document × ℚ) :=
  [(docA, mkRat 9 10), (docB, mkRat 3 10), (docC, mkRat 6 10)]

/-- Inserting with `insertDesc p l` yields a permutation of `p :: l`. -/
theorem insertDesc_perm (p : Document × ℚ) (l : List (Document × ℚ)) :
    List.Perm (insertDesc p l) (p :: l) := by
  induction l with
  | nil => simp [insertDesc]
  | cons q rest ih =>
    by_cases h : p.2 < q.2
    · simp only [insertDesc, if_pos h]
      exact List.Perm.trans (ih.cons q) (List.Perm.swap p q rest)
    · simp [insertDesc, if_neg h]

/-- Sorting with `sortByScoreDesc` permutes its input: no pair is dropped or duplicated. -/
theorem sortByScoreDesc_perm (l : List (Document × ℚ)) :
    List.Perm (sortByScoreDesc l) l := by
  induction l with
  | nil => simp [sortByScoreDesc]
  | cons p rest ih =>
    exact List.Perm.trans (insertDesc_perm p (sortByScoreDesc rest)) (ih.cons p)

/-- Scores are non-increasing along the sorted list. -/
def ScoresDesc (l : List (Document × ℚ)) : Prop :=
  List.Pairwise (fun a b : Document × ℚ => b.2 ≤ a.2) l

theorem insertDesc_sorted (p : Document × ℚ) (l : List (Document × ℚ))
    (hl : ScoresDesc l) : ScoresDesc (insertDesc p l) := by
  induction l with
  | nil => simp [insertDesc, ScoresDesc]
  | cons q rest ih =>
    obtain ⟨hq, hrest⟩ := List.pairwise_cons.mp hl
    by_cases h : p.2 < q.2
    · simp only [insertDesc, if_pos h]
      refine List.Pairwise.cons ?_ (ih hrest)
      intro x hx
      rcases List.mem_cons.mp ((insertDesc_perm p rest).mem_iff.mp hx) with hx | hx
      · exact hx ▸ le_of_lt h
      · exact hq x hx
    · simp only [insertDesc, if_neg h]
      refine List.Pairwise.cons ?_ (List.Pairwise.cons hq hrest)
      intro x hx
      rcases List.mem_cons.mp hx with hx | hx
      · exact hx ▸ le_of_not_lt h
      · exact le_trans (hq x hx) (le_of_not_lt h)

/-- The Retrieve node's exec result is sorted by score, descending. -/
theorem retrieveExec_sorted (results : List (Document × ℚ)) :
    ScoresDesc (retrieveExec results) := by
  show ScoresDesc (sortByScoreDesc results)
  induction results with
  | nil => simp [sortByScoreDesc, ScoresDesc]
  | cons p rest ih => exact insertDesc_sorted p (sortByScoreDesc rest) ih

end CadGPT

namespace CadGPT

/-- C1: The claim states the passages are concatenated in ascending score
order, with docB before docC before docA on the worked example; the code
sorts with `reverse=True` (descending) and never re-sorts ascending, so the
concatenation order on the example is docA, docC, docB. -/
theorem retrieve_context_not_ascending :
    retrievePassages exampleResults = ["docA", "docC", "docB"] ∧
    retrievePassages exampleResults ≠ ["docB", "docC", "docA"] := by
  decide

set_option maxRecDepth 4000 in
/-- C1 (amended): the Retrieve node assembles `context` as the fixed
worked-example preamble followed by the retrieved passages ordered by
DESCENDING relevance score (highest score first); on the worked example the
context is the preamble followed by docA, then docC, then docB. -/
theorem retrieve_context_descending :
    (∀ results : List (Document × ℚ), ScoresDesc (retrieveExec results)) ∧
    (∀ results : List (Document × ℚ), List.Perm (retrieveExec results) results) ∧
    retrievePassages exampleResults = ["docA", "docC", "docB"] ∧
    retrieveRunContext exampleResults =
      buildBaseContext ++ "\n\n---\n\ndocA\n\n---\n\ndocC\n\n---\n\ndocB" := by
  refine ⟨retrieveExec_sorted, sortByScoreDesc_perm, by decide, ?_⟩
  decide

/-- C2: The claim states `sources` lists the identifiers in the original
(pre-reorder) order; the code builds `sources` from the exec result, which is
already reordered (descending by score), so on the worked example `sources`
is [idA, idC, idB], not the original [idA, idB, idC]. -/
theorem retrieve_sources_not_original_order :
    retrieveRunSources exampleResults = [some "idA", some "idC", some "idB"] ∧
    exampleResults.map (fun p => metadataGetId p.1) =
      [some "idA", some "idB", some "idC"] ∧
    retrieveRunSources exampleResults ≠
      exampleResults.map (fun p => metadataGetId p.1) := by
  decide

/-- C2 (amended): after the Retrieve node runs, `sources` equals the
identifiers of the returned pairs in the REORDERED (descending-score) order;
its length equals the number of returned pairs, and it is a permutation of
the identifiers taken in original order. -/
theorem retrieve_sources_reordered :
    ∀ results : List (Document × ℚ),
      (retrieveRunSources results).length = results.length ∧
      List.Perm (retrieveRunSources results)
        (results.map (fun p => metadataGetId p.1)) := by
  intro results
  constructor
  · show ((retrieveExec results).map _).length = results.length
    rw [List.length_map]
    exact (sortByScoreDesc_perm results).length_eq
  · exact (sortByScoreDesc_perm results).map (fun p => metadataGetId p.1)

/-- C10: a retrieved document with no "id" metadata still contributes an
entry to `sources`: the list keeps one element per retrieved pair (length
preserved), and the pair's position holds `none` rather than being omitted. -/
theorem retrieve_sources_missing_id (results : List (Document × ℚ))
    (d : Document) (s : ℚ) :
    (retrieveRunSources results).length = results.length ∧
    ((d, s) ∈ results → metadataGetId d = none →
      (none : Option String) ∈ retrieveRunSources results) := by
  constructor
  · show ((retrieveExec results).map _).length = results.length
    rw [List.length_map]
    exact (sortByScoreDesc_perm results).length_eq
  · intro hmem hid
    have hmem2 : (d, s) ∈ retrieveExec results :=
      (sortByScoreDesc_perm results).mem_iff.mpr hmem
    have h3 : metadataGetId d ∈
        (retrieveExec results).map (fun chunk : Document × ℚ => metadataGetId chunk.1) :=
      List.mem_map_of_mem (fun chunk : Document × ℚ => metadataGetId chunk.1) hmem2
    rw [hid] at h3
    exact h3

/-- A concrete run of `retrieve_sources_missing_id` on a single retrieved
document whose metadata lacks an "id" field. -/
theorem retrieve_sources_missing_id_witness :
    (none : Option String) ∈ retrieveRunSources [(⟨"docX", []⟩, mkRat 1 2)] :=
  (retrieve_sources_missing_id [(⟨"docX", []⟩, mkRat 1 2)] ⟨"docX", []⟩ (mkRat 1 2)).2
    (by decide) (by decide)

end CadGPT

namespace CadGPT

/-- The shared key-value bag threaded through the flow, as a record of the
keys this pipeline ever writes (`query` set by `query_rag`, the rest by the
node `post` phases); a key that has not been written yet holds `""`
(respectively `[]` for `sources`). -/
structure SharedState where
  query : String
  context : String
  task_steps : String
  query_type : String
  context_evaluation : String
  code_response : String
  code_verification : String
  sources : List (Option String)
deriving DecidableEq, Repr

/-- The bag `shared = {"query": query_text}` as built by `query_rag` (main.py line 255). -/
def initialShared (query_text : String) : SharedState :=
  { query := query_text, context := "", task_steps := "", query_type := "",
    context_evaluation := "", code_response := "", code_verification := "",
    sources := [] }

/-- The configuration actually passed to the ChatOpenAI constructor by
`get_openai_model` (main.py lines 56-61): only the model name and the
reasoning effort are set.  The API key is an environment value the
constructor merely forwards, irrelevant to every claim. -/
structure ChatOpenAI where
  model : String
  reasoning_effort : String
deriving DecidableEq, Repr

/-- The model creator `get_openai_model(temperature)` (main.py lines 56-61): the `temperature`
argument is accepted but does not appear in the constructed model. -/
def get_openai_model (temperature : ℚ) : ChatOpenAI :=
  { model := "o3-mini", reasoning_effort := "medium" }

/-- The temperature argument each node's exec passes to `get_openai_model`:
GenerateCode line 129. -/
def generateTemperature : ℚ := mkRat 2 10

/-- EvaluateContext line 184. -/
def evaluateTemperature : ℚ := 0

/-- VerifyCode line 225. -/
def verifyTemperature : ℚ := 0

/-- DecomposeTask line 198. -/
def decomposeTemperature : ℚ := mkRat 3 10

/-- AnalyzeQuery line 212. -/
def analyzeTemperature : ℚ := mkRat 1 10

/-- The text of `PROMPT_TEMPLATE` (main.py lines 19-42) up to the `context` placeholder. -/
def promptTemplatePre : String :=
  "\nYou are an expert in CadQuery and Python. Given the following context, generate **only** valid, functional CadQuery code that follows best practices. Ensure the code does not contain syntax errors and is executable.\n\nContext:\n"

/-- The text of `PROMPT_TEMPLATE` between the `context` and `question` placeholders. -/
def promptTemplateMid : String :=
  "\n\n---\n\nTask: Generate CadQuery code for the following request:\n"

/-- The text of `PROMPT_TEMPLATE` after the `question` placeholder. -/
def promptTemplatePost : String :=
  "\n\n**Guidelines:**\n- Use `cq.Workplane` properly.\n- Ensure all operations are valid and logically ordered.\n- Include necessary imports (`import cadquery as cq`).\n- Do not include explanations, only return valid Python code.\n- If unsure, return the best possible attempt.\n- Use .circle().extrude() instead of .cylinder()\n- Use display(object) at the end of the script instead of show() or show_object()\n- If creating a symmetrical object, create half of it and use .mirror() to complete it.\n- Always ensure that objects are created at the origin (0, 0, 0) unless otherwise specified.\n\nOutput only the CadQuery code:\n"

/-- The call `prompt_template.format(context=..., question=...)`: substitution of the
two placeholders of `PROMPT_TEMPLATE` (the chat-template wrapper adds only a
fixed role prefix around this content, which is external-library rendering
and is elided). -/
def formatPromptTemplate (context question : String) : String :=
  promptTemplatePre ++ context ++ promptTemplateMid ++ question ++ promptTemplatePost

/-- The method `GenerateCode.load_context_from_file` (main.py lines 113-119): the
guideline file is an external collaborator, `some contents` when readable and
`none` when opening or reading raises; on failure the fallback placeholder is
returned and no error propagates. -/
def load_context_from_file (file : Option String) : String :=
  match file with
  | some contents => contents
  | none => "No guidelines available."

/-- The prep phase `GenerateCode.prep` (main.py lines 121-126): formats the template with
the guideline-file contents and `shared["query"]`. -/
def generatePrep (guidelinesFile : Option String) (shared : SharedState) : String :=
  formatPromptTemplate (load_context_from_file guidelinesFile) shared.query

/-- The finalize phase `EvaluateContext.post` (main.py lines 188-191): stores the evaluation
text and returns `"default"`. -/
def evaluatePost (shared : SharedState) (exec_res : String) : SharedState × String :=
  ({ shared with context_evaluation := exec_res }, "default")

/-- The finalize phase `VerifyCode.post` (main.py lines 229-231): stores the verification text
and returns `"default"`. -/
def verifyPost (shared : SharedState) (exec_res : String) : SharedState × String :=
  ({ shared with code_verification := exec_res }, "default")

/-- The seven nodes created by `create_cadquery_flow` (main.py lines 233-250). -/
inductive NodeId where
  | analyze
  | decompose
  | retrieve
  | evaluate
  | generate
  | verify
  | save
deriving DecidableEq, Repr

/-- The edge table registered by `create_cadquery_flow` (main.py lines
244-248): the linear backbone connected with `>>` (label `"default"`) plus
the two conditional back-edges `evaluate - "insufficient_context" >> retrieve`
and `verify - "invalid_code" >> generate`. -/
def flowEdges : NodeId → String → Option NodeId
  | .analyze, "default" => some .decompose
  | .decompose, "default" => some .retrieve
  | .retrieve, "default" => some .evaluate
  | .evaluate, "default" => some .generate
  | .evaluate, "insufficient_context" => some .retrieve
  | .generate, "default" => some .verify
  | .verify, "default" => some .save
  | .verify, "invalid_code" => some .generate
  | _, _ => none

end CadGPT

namespace CadGPT

/-- C3: whatever evaluation and verification texts the execute phases
produce, `EvaluateContext.post` and `VerifyCode.post` return the label
`"default"`, never `"insufficient_context"` or `"invalid_code"`, so the edge
followed out of Evaluate is always the one to Generate and the edge out of
Verify is always the one to Save: the two back-edges are never taken. -/
theorem evaluate_verify_always_default :
    ∀ (shared : SharedState) (evaluation verification : String),
      (evaluatePost shared evaluation).2 = "default" ∧
      (verifyPost shared verification).2 = "default" ∧
      (evaluatePost shared evaluation).2 ≠ "insufficient_context" ∧
      (verifyPost shared verification).2 ≠ "invalid_code" ∧
      flowEdges .evaluate (evaluatePost shared evaluation).2 = some .generate ∧
      flowEdges .verify (verifyPost shared verification).2 = some .save := by
  intro shared evaluation verification
  refine ⟨rfl, rfl, ?_, ?_, rfl, rfl⟩
  · show ("default" : String) ≠ "insufficient_context"
    decide
  · show ("default" : String) ≠ "invalid_code"
    decide

/-- C4: the claim states the constructed model actually differs with the
temperature each node requests; in the code `get_openai_model` ignores its
`temperature` argument, so Generate's model (temperature 0.2) is identical to
Evaluate's (temperature 0.0), even though the two requested temperatures
differ. -/
theorem get_openai_model_same_for_all_temperatures :
    generateTemperature ≠ evaluateTemperature ∧
    get_openai_model generateTemperature = get_openai_model evaluateTemperature := by
  constructor
  · decide
  · rfl

/-- C4 (amended): the nodes request distinct temperature arguments
(Generate 0.2; Evaluate and Verify 0.0; Decompose 0.3; Analyze 0.1 — so
Decompose's request even exceeds Generate's), but `get_openai_model` ignores
the argument and constructs the same model for every temperature, so the
model construction does not differ by node. -/
theorem get_openai_model_ignores_temperature :
    (∀ t1 t2 : ℚ, get_openai_model t1 = get_openai_model t2) ∧
    evaluateTemperature = 0 ∧ verifyTemperature = 0 ∧
    0 < generateTemperature ∧ 0 < decomposeTemperature ∧ 0 < analyzeTemperature ∧
    generateTemperature < decomposeTemperature := by
  refine ⟨fun t1 t2 => rfl, rfl, rfl, ?_, ?_, ?_, ?_⟩ <;> decide

/-- C5: the prompt prepared by `GenerateCode.prep` depends on the shared
state only through `query`: two shared states agreeing on `query` yield the
same prompt whatever their `context`, `task_steps`, `query_type` and
`context_evaluation` entries (the guideline file is a fixed external input,
not shared state). -/
theorem generate_prompt_depends_only_on_query
    (guidelinesFile : Option String) (s1 s2 : SharedState)
    (h : s1.query = s2.query) :
    generatePrep guidelinesFile s1 = generatePrep guidelinesFile s2 := by
  unfold generatePrep
  rw [h]

/-- A concrete run of `generate_prompt_depends_only_on_query` on two shared
states with the same query but different context, task steps, query type and
context evaluation. -/
theorem generate_prompt_depends_only_on_query_witness :
    generatePrep (some "guide") (initialShared "hollow cylinder") =
      generatePrep (some "guide")
        { query := "hollow cylinder", context := "ctx", task_steps := "steps",
          query_type := "type", context_evaluation := "eval",
          code_response := "code", code_verification := "ok",
          sources := [some "idA"] } :=
  generate_prompt_depends_only_on_query (some "guide") _ _ rfl

/-- C9: when the guideline file is unreadable, `load_context_from_file`
returns the fallback placeholder and `GenerateCode.prep` still produces a
prompt (with the placeholder substituted for the context), so the run
continues instead of failing. -/
theorem generate_fallback_on_unreadable_guidelines :
    ∀ shared : SharedState,
      load_context_from_file none = "No guidelines available." ∧
      generatePrep none shared =
        formatPromptTemplate "No guidelines available." shared.query := by
  intro shared
  exact ⟨rfl, rfl⟩

end CadGPT

namespace CadGPT

/-- The whitespace characters removed by Python's `str.strip()` (the ASCII
ones; the inputs of this program contain no exotic Unicode spaces). -/
def isPySpace (c : Char) : Bool :=
  c = ' ' || c = '\t' || c = '\n' || c = '\r' || c = '\x0b' || c = '\x0c'

/-- Python's `str.replace`: replace every leftmost non-overlapping occurrence
of `pat` by `rep`, scanning left to right.  The `fuel` argument makes the
recursion structural; `pyReplace` instantiates it with the string length,
which suffices because each step consumes at least one character. -/
def pyReplaceFuel : Nat → List Char → List Char → List Char → List Char
  | 0, _, _, s => s
  | _ + 1, _, _, [] => []
  | fuel + 1, pat, rep, c :: rest =>
    if pat ≠ [] ∧ pat.isPrefixOf (c :: rest) then
      rep ++ pyReplaceFuel fuel pat rep ((c :: rest).drop pat.length)
    else
      c :: pyReplaceFuel fuel pat rep rest

/-- Python's `s.replace(pat, rep)` on character lists. -/
def pyReplace (s pat rep : List Char) : List Char :=
  pyReplaceFuel s.length pat rep s

/-- Python's `s.replace(pat, rep)` on strings. -/
def strReplace (s pat rep : String) : String :=
  (pyReplace s.toList pat.toList rep.toList).asString

/-- Python's `s.strip()`: drop leading and trailing whitespace. -/
def strStrip (s : String) : String :=
  (((s.toList.dropWhile isPySpace).reverse.dropWhile isPySpace).reverse).asString

/-- The cleaning step `code_response.replace("```python","").replace("```","").strip()`
(main.py line 148). -/
def code_response_py (code_response : String) : String :=
  strStrip (strReplace (strReplace code_response "```python" "") "```" "")

/-- The cell text `new_code = "###"+query_text.replace("\n","\n##")+"\n"+code_response_py`
(main.py line 164): the label rendered as commented lines, then the cleaned
code body. -/
def new_code (query_text code_response : String) : String :=
  "###" ++ strReplace query_text "\n" "\n##" ++ "\n" ++ code_response_py code_response

/-- The state of the notebook file `./query/result.ipynb` before Save runs:
absent, existing but unparseable, or parsed into its list of cells (each cell
is its source text; the claims only concern the cell list). -/
inductive FileState where
  | absent
  | corrupted
  | readable (cells : List String)
deriving DecidableEq, Repr

/-- The cell list written back by `SaveToNotebook.exec` (main.py lines
141-172): start from the existing notebook's cells when the file exists and
parses, from an empty notebook otherwise (absent, or the `nbf.read` call
raised), then append the single new code cell. -/
def saveExecCells (file : FileState) (query_text code_response : String) :
    List String :=
  (match file with
   | .absent => []
   | .corrupted => []
   | .readable cells => cells) ++ [new_code query_text code_response]

end CadGPT

namespace CadGPT

/-- C6: Save appends exactly one entry: on a readable document the result is
the prior cells followed by the single new cell (prior entries unchanged, in
place, length grown by one); on an absent document the result is the one new
cell; on a corrupted document the prior content is discarded and the result
has exactly one entry. -/
theorem save_appends_exactly_one_entry :
    ∀ (query_text code_response : String) (cells : List String),
      saveExecCells (.readable cells) query_text code_response =
        cells ++ [new_code query_text code_response] ∧
      (saveExecCells (.readable cells) query_text code_response).length =
        cells.length + 1 ∧
      (saveExecCells (.readable cells) query_text code_response).take cells.length =
        cells ∧
      saveExecCells .absent query_text code_response =
        [new_code query_text code_response] ∧
      (saveExecCells .corrupted query_text code_response).length = 1 := by
  intro query_text code_response cells
  refine ⟨rfl, by simp [saveExecCells], ?_, rfl, rfl⟩
  show (cells ++ [new_code query_text code_response]).take cells.length = cells
  exact List.take_left cells _

/-- C7: for the generated response "```python\nimport x\n```" the persisted
code body is exactly "import x" (fences stripped, whitespace trimmed), and
the whole cell for the query "hollow cylinder" is the commented query line
followed by that body. -/
theorem save_strips_code_fences :
    code_response_py "```python\nimport x\n```" = "import x" ∧
    new_code "hollow cylinder" "```python\nimport x\n```" =
      "###hollow cylinder\nimport x" := by
  decide

end CadGPT

namespace CadGPT

/-- The external collaborators of one run: the similarity-search result, the
chat model's raw response text per calling node, and the guideline file. -/
structure Collaborators where
  searchResults : List (Document × ℚ)
  llmResponse : NodeId → String
  guidelinesFile : Option String

/-- One node activation (prepare, execute, finalize in order, writing back
into the shared bag and returning the transition label).  Each branch
transcribes the corresponding node body of main.py; `fail n = some e` means
the node's external call raised `e`, which propagates out of the activation.
Note `GenerateCode.exec` strips its response (`response.content.strip()`,
line 131). -/
def activate (env : Collaborators) (fail : NodeId → Option String) (n : NodeId)
    (shared : SharedState) (file : FileState) :
    Except String (SharedState × FileState × String) :=
  match fail n with
  | some e => .error e
  | none =>
    match n with
    | .analyze =>
        .ok ({ shared with query_type := env.llmResponse .analyze }, file, "default")
    | .decompose =>
        .ok ({ shared with task_steps := env.llmResponse .decompose }, file, "default")
    | .retrieve =>
        .ok ({ shared with
                context := retrieveRunContext env.searchResults
                sources := retrieveRunSources env.searchResults },
          file, "default")
    | .evaluate =>
        let res := evaluatePost shared (env.llmResponse .evaluate)
        .ok (res.1, file, res.2)
    | .generate =>
        .ok ({ shared with code_response := strStrip (env.llmResponse .generate) },
          file, "default")
    | .verify =>
        let res := verifyPost shared (env.llmResponse .verify)
        .ok (res.1, file, res.2)
    | .save =>
        .ok (shared, .readable (saveExecCells file shared.query shared.code_response),
          "default")

/-- Modelled from the spec: the `Flow.run` orchestrator (the pocketflow
library, not part of this repository's source) — activate the current node,
follow the edge matching the returned label, stop when no edge matches, and
let any activation error propagate uncaught.  The `fuel` bound is an artifact
of the embedding (the spec's engine is unbounded); `fuel = 0` yields an
error, so a successful result always comes from an actual terminating walk. -/
def flowRun (env : Collaborators) (fail : NodeId → Option String) :
    Nat → NodeId → SharedState → FileState → Except String (SharedState × FileState)
  | 0, _, _, _ => .error "fuel exhausted"
  | fuel + 1, n, shared, file =>
    match activate env fail n shared file with
    | .error e => .error e
    | .ok (shared2, file2, label) =>
      match flowEdges n label with
      | some next => flowRun env fail fuel next shared2 file2
      | none => .ok (shared2, file2)

/-- The entry point `query_rag` (main.py lines 252-258): build the flow, run it on
`{"query": query_text}`, and catch any exception, logging it and returning
normally; the returned value is the notebook file state after the run (the
only durable effect). -/
def query_rag (env : Collaborators) (fail : NodeId → Option String) (fuel : Nat)
    (query_text : String) (file : FileState) : FileState :=
  match flowRun env fail fuel .analyze (initialShared query_text) file with
  | .ok (_, finalFile) => finalFile
  | .error _ => file

/-- The notebook file is touched only by the Save node: a successful run
leaves it unchanged or replaces it by a readable notebook obtained by the
Save append; an error result never commits anything. -/
theorem flowRun_ok_file (env : Collaborators) (fail : NodeId → Option String) :
    ∀ (fuel : Nat) (n : NodeId) (shared : SharedState) (file : FileState)
      (s2 : SharedState) (f2 : FileState),
      flowRun env fail fuel n shared file = .ok (s2, f2) →
      f2 = file ∨ ∃ q c, f2 = .readable (saveExecCells file q c) := by
  intro fuel
  induction fuel with
  | zero =>
    intro n shared file s2 f2 h
    simp [flowRun] at h
  | succ fuel ih =>
    intro n shared file s2 f2 h
    rw [flowRun] at h
    cases hfn : fail n with
    | some e => cases n <;> simp [activate, hfn] at h
    | none =>
      cases n <;>
        simp only [activate, hfn, flowEdges, evaluatePost, verifyPost] at h
      case analyze => exact ih _ _ _ _ _ h
      case decompose => exact ih _ _ _ _ _ h
      case retrieve => exact ih _ _ _ _ _ h
      case evaluate => exact ih _ _ _ _ _ h
      case generate => exact ih _ _ _ _ _ h
      case verify => exact ih _ _ _ _ _ h
      case save =>
        injection h with hp
        injection hp with hs hf
        exact Or.inr ⟨shared.query, shared.code_response, hf.symm⟩

end CadGPT

namespace CadGPT

/-- C8: the top-level entry point catches any error raised during the run and
returns the notebook unchanged (first conjunct: an erroring run commits
nothing), and in every case the resulting notebook is either untouched or the
result of the single Save append at the end of a fully successful run (second
conjunct) — Save being the only durable side effect and the last node, an
earlier failure persists no new entry. -/
theorem query_rag_catches_errors_no_partial_save :
    ∀ (env : Collaborators) (fail : NodeId → Option String) (fuel : Nat)
      (query_text : String) (file : FileState),
      (∀ e, flowRun env fail fuel .analyze (initialShared query_text) file = .error e →
        query_rag env fail fuel query_text file = file) ∧
      (query_rag env fail fuel query_text file = file ∨
        ∃ q c, query_rag env fail fuel query_text file = .readable (saveExecCells file q c)) := by
  intro env fail fuel query_text file
  constructor
  · intro e he
    unfold query_rag
    rw [he]
  · unfold query_rag
    cases hr : flowRun env fail fuel .analyze (initialShared query_text) file with
    | error e => exact Or.inl rfl
    | ok p =>
      obtain ⟨s2, f2⟩ := p
      rcases flowRun_ok_file env fail fuel .analyze (initialShared query_text) file s2 f2 hr
        with h | ⟨q, c, h⟩
      · exact Or.inl h
      · exact Or.inr ⟨q, c, h⟩

/-- The collaborators of the concrete failing run used as witness: empty
search results, blank model responses, no guideline file. -/
def witnessEnv : Collaborators :=
  { searchResults := [], llmResponse := fun _ => "", guidelinesFile := none }

/-- The Retrieve node's external call raises; every other node succeeds. -/
def witnessFail : NodeId → Option String :=
  fun n => match n with
  | .retrieve => some "network error"
  | _ => none

/-- A concrete run of `query_rag_catches_errors_no_partial_save`: with the
similarity search raising, `query_rag` returns normally and the pre-existing
notebook is unchanged. -/
theorem query_rag_catches_errors_witness :
    query_rag witnessEnv witnessFail 10 "hollow cylinder" (.readable ["old entry"]) =
      .readable ["old entry"] :=
  (query_rag_catches_errors_no_partial_save witnessEnv witnessFail 10 "hollow cylinder"
    (.readable ["old entry"])).1 "network error" rfl

end CadGPT
